import Mathlib

/-!
Verification of the LinguaFlow language-learning app (provider gateway,
JSON response extraction, domain operations, application state store,
and exam scoring), shallowly embedded from the TypeScript source.

JavaScript numbers are modelled as `Rat`, machine strings as `String`,
fallible paths as `Except`, and the outbound network as an explicit
oracle `NetCall → Except NetErr String`; every operation additionally
returns the list of network calls it performed, so "no network call is
attempted" is a provable statement about the trace.
-/

/-- Left brace character, the start of a JSON object. -/
def lbrace : Char := '\x7b'

/-- Right brace character, the end of a JSON object. -/
def rbrace : Char := '\x7d'

/-- JSON values as produced by `JSON.parse`. Numbers are exact rationals. -/
inductive Json where
  | null
  | bool (b : Bool)
  | num (q : Rat)
  | str (s : String)
  | arr (elems : List Json)
  | obj (fields : List (String × Json))

/-- Whitespace accepted between JSON tokens (as in the JSON grammar). -/
def isJsonWs (c : Char) : Bool :=
  c = ' ' || c = '\t' || c = '\n' || c = '\r'

/-- Whitespace trimmed by JavaScript `String.prototype.trim` (common cases). -/
def isJsWs (c : Char) : Bool :=
  c = ' ' || c = '\t' || c = '\n' || c = '\r' || c = '\x0c' || c = '\x0b'

/-- Drop JSON whitespace from the front of a character stream. -/
def skipWs (cs : List Char) : List Char :=
  cs.dropWhile isJsonWs

/-- Value of a hexadecimal digit, if the character is one. -/
def hexVal (c : Char) : Option Nat :=
  if '0' ≤ c ∧ c ≤ '9' then some (c.toNat - 48)
  else if 'a' ≤ c ∧ c ≤ 'f' then some (c.toNat - 87)
  else if 'A' ≤ c ∧ c ≤ 'F' then some (c.toNat - 55)
  else none

/-- Parse the body of a JSON string literal (after the opening quote),
returning the decoded string and the rest of the input. -/
def parseStringBody : Nat → List Char → Option (String × List Char)
  | 0, _ => none
  | _, [] => none
  | fuel + 1, c :: rest =>
    if c = '"' then
      some ("", rest)
    else if c = '\\' then
      match rest with
      | [] => none
      | e :: rest2 =>
        let esc : Option (Char × List Char) :=
          if e = '"' then some ('"', rest2)
          else if e = '\\' then some ('\\', rest2)
          else if e = '/' then some ('/', rest2)
          else if e = 'n' then some ('\n', rest2)
          else if e = 't' then some ('\t', rest2)
          else if e = 'r' then some ('\r', rest2)
          else if e = 'b' then some ('\x08', rest2)
          else if e = 'f' then some ('\x0c', rest2)
          else if e = 'u' then
            match rest2 with
            | h1 :: h2 :: h3 :: h4 :: rest3 =>
              match hexVal h1, hexVal h2, hexVal h3, hexVal h4 with
              | some v1, some v2, some v3, some v4 =>
                some (Char.ofNat (((v1 * 16 + v2) * 16 + v3) * 16 + v4), rest3)
              | _, _, _, _ => none
            | _ => none
          else none
        match esc with
        | none => none
        | some (ch, rest3) =>
          match parseStringBody fuel rest3 with
          | none => none
          | some (s, r) => some (⟨ch :: s.data⟩, r)
    else
      match parseStringBody fuel rest with
      | none => none
      | some (s, r) => some (⟨c :: s.data⟩, r)

/-- Split off a maximal run of decimal digits. -/
def takeDigits (cs : List Char) : List Char × List Char :=
  (cs.takeWhile Char.isDigit, cs.dropWhile Char.isDigit)

/-- Numeric value of a digit run. -/
def digitsToNat (ds : List Char) : Nat :=
  ds.foldl (fun a d => a * 10 + (d.toNat - 48)) 0

/-- Assemble a rational from the pieces of a JSON number literal:
`sign * (intPart.fracDigits) * 10^(±e)`, built with `mkRat` so that it
evaluates by reduction. -/
def ratOfParts (neg : Bool) (ip : Nat) (fracDigits : List Char)
    (expNeg : Bool) (e : Nat) : Rat :=
  let mantissa : Nat := ip * 10 ^ fracDigits.length + digitsToNat fracDigits
  let m : Int := if neg then -(Int.ofNat mantissa) else Int.ofNat mantissa
  if expNeg then mkRat m (10 ^ fracDigits.length * 10 ^ e)
  else mkRat (m * Int.ofNat (10 ^ e)) (10 ^ fracDigits.length)

/-- Parse a JSON number literal (grammar of `JSON.parse`: optional minus,
integer part without leading zeros, optional fraction, optional exponent). -/
def parseNumber (cs : List Char) : Option (Rat × List Char) :=
  let (neg, cs1) :=
    match cs with
    | '-' :: rest => (true, rest)
    | _ => (false, cs)
  let (ds, cs2) := takeDigits cs1
  match ds with
  | [] => none
  | d0 :: drest =>
    if d0 = '0' ∧ drest ≠ [] then none
    else
      let ip := digitsToNat ds
      let (fracDigits, cs3) :=
        match cs2 with
        | '.' :: rest =>
          let (fs, r) := takeDigits rest
          (fs, r)
        | _ => ([], cs2)
      match cs2 with
      | '.' :: rest =>
        if (takeDigits rest).1 = [] then none
        else parseExpPart neg ip fracDigits cs3
      | _ => parseExpPart neg ip fracDigits cs3
where
  /-- Parse the optional exponent and finish the number. -/
  parseExpPart (neg : Bool) (ip : Nat) (fracDigits : List Char)
      (cs : List Char) : Option (Rat × List Char) :=
    match cs with
    | 'e' :: rest => parseExpDigits neg ip fracDigits rest
    | 'E' :: rest => parseExpDigits neg ip fracDigits rest
    | _ => some (ratOfParts neg ip fracDigits false 0, cs)
  /-- Parse the exponent sign and digits. -/
  parseExpDigits (neg : Bool) (ip : Nat) (fracDigits : List Char)
      (cs : List Char) : Option (Rat × List Char) :=
    let (expNeg, cs1) :=
      match cs with
      | '-' :: rest => (true, rest)
      | '+' :: rest => (false, rest)
      | _ => (false, cs)
    let (es, cs2) := takeDigits cs1
    match es with
    | [] => none
    | _ => some (ratOfParts neg ip fracDigits expNeg (digitsToNat es), cs2)

mutual

/-- Parse one JSON value from the stream (leading whitespace allowed). -/
def parseValue : Nat → List Char → Option (Json × List Char)
  | 0, _ => none
  | fuel + 1, cs =>
    match skipWs cs with
    | [] => none
    | 'n' :: 'u' :: 'l' :: 'l' :: rest => some (.null, rest)
    | 't' :: 'r' :: 'u' :: 'e' :: rest => some (.bool true, rest)
    | 'f' :: 'a' :: 'l' :: 's' :: 'e' :: rest => some (.bool false, rest)
    | '"' :: rest =>
      match parseStringBody (rest.length + 1) rest with
      | none => none
      | some (s, r) => some (.str s, r)
    | '[' :: rest =>
      (match skipWs rest with
       | ']' :: r2 => some (.arr [], r2)
       | _ =>
         match parseElems fuel rest with
         | none => none
         | some (es, r2) => some (.arr es, r2))
    | c :: rest =>
      if c = lbrace then
        match skipWs rest with
        | d :: r2 =>
          if d = rbrace then some (.obj [], r2)
          else
            match parseFields fuel rest with
            | none => none
            | some (fs, r2) => some (.obj fs, r2)
        | [] => none
      else
        match parseNumber (c :: rest) with
        | none => none
        | some (q, r) => some (.num q, r)

/-- Parse a non-empty comma-separated element list followed by `]`. -/
def parseElems : Nat → List Char → Option (List Json × List Char)
  | 0, _ => none
  | fuel + 1, cs =>
    match parseValue fuel cs with
    | none => none
    | some (v, r) =>
      match skipWs r with
      | ',' :: r2 =>
        (match parseElems fuel r2 with
         | none => none
         | some (vs, r3) => some (v :: vs, r3))
      | ']' :: r2 => some ([v], r2)
      | _ => none

/-- Parse a non-empty comma-separated field list followed by a right brace. -/
def parseFields : Nat → List Char → Option (List (String × Json) × List Char)
  | 0, _ => none
  | fuel + 1, cs =>
    match skipWs cs with
    | '"' :: rest =>
      (match parseStringBody (rest.length + 1) rest with
       | none => none
       | some (k, r) =>
         match skipWs r with
         | ':' :: r2 =>
           (match parseValue fuel r2 with
            | none => none
            | some (v, r3) =>
              match skipWs r3 with
              | ',' :: r4 =>
                (match parseFields fuel r4 with
                 | none => none
                 | some (fs, r5) => some ((k, v) :: fs, r5))
              | d :: r4 =>
                if d = rbrace then some ([(k, v)], r4) else none
              | [] => none)
         | _ => none)
    | _ => none

end

/-- Model of `JSON.parse`: `some` on valid JSON documents, `none` otherwise. -/
def jsonParse (s : String) : Option Json :=
  match parseValue (4 * s.length + 4) s.data with
  | none => none
  | some (j, rest) =>
    match skipWs rest with
    | [] => some j
    | _ => none

/-- Field lookup on an object value: `none` (i.e. `undefined`) unless `j`
is an object with field `k`; duplicate keys resolve to the last. -/
def Json.objField : Json → String → Option Json
  | .obj fs, k => ((fs.reverse).find? (fun p => p.1 == k)).map (fun p => p.2)
  | _, _ => none

/-- Property access `j.k` as JavaScript evaluates it: a `TypeError`
(`none`) when `j` is `null`; otherwise `some` of the access result —
`undefined` on primitives and arrays, the field value (or `undefined`) on
objects. -/
def jsGet (j : Json) (k : String) : Option (Option Json) :=
  match j with
  | .null => none
  | _ => some (j.objField k)

/-- Is the value a JSON array? (`Array.isArray`). -/
def Json.isArr : Json → Bool
  | .arr _ => true
  | _ => false

/-- Is the value a JSON object? -/
def Json.isObj : Json → Bool
  | .obj _ => true
  | _ => false

/-- JavaScript truthiness of a possibly-undefined JSON value. -/
def jsTruthy : Option Json → Bool
  | none => false
  | some .null => false
  | some (.bool b) => b
  | some (.num q) => !(q == 0)
  | some (.str s) => !(s == "")
  | some (.arr _) => true
  | some (.obj _) => true

/-- JavaScript `v || dflt` on a possibly-undefined JSON value. -/
def jsOr (v : Option Json) (dflt : Json) : Json :=
  match v with
  | some j => if jsTruthy (some j) then j else dflt
  | none => dflt

/-- JavaScript `s || dflt` on a string (empty string is falsy). -/
def jsOrStr (s : String) (dflt : String) : String :=
  if s == "" then dflt else s

/-- Does the character list start with the given literal? -/
def charsStart : List Char → List Char → Bool
  | [], _ => true
  | _ :: _, [] => false
  | a :: p, b :: s => a = b && charsStart p s

/-- JavaScript-style trim on a character list. -/
def trimChars (cs : List Char) : List Char :=
  ((cs.dropWhile isJsWs).reverse.dropWhile isJsWs).reverse

/-- Model of `String.prototype.trim`. -/
def trimStr (s : String) : String :=
  ⟨trimChars s.data⟩

/-- Strip a trailing code fence: the regex `\s*` followed by three backticks
anchored at the end, removed when present. -/
def stripEndFence (cs : List Char) : List Char :=
  let r := cs.reverse
  if charsStart "```".data r then
    (((r.drop 3).dropWhile isJsWs)).reverse
  else cs

/-- `cleanJsonText` from the source: empty text becomes `"{}"`; a fenced code
block (with or without a `json` tag) loses its fences; otherwise the trimmed
text is returned unmodified. -/
def cleanJsonText (text : String) : String :=
  if text = "" then ⟨[lbrace, rbrace]⟩
  else
    let clean := trimChars text.data
    if charsStart "```json".data clean then
      ⟨stripEndFence ((clean.drop 7).dropWhile isJsWs)⟩
    else if charsStart "```".data clean then
      ⟨stripEndFence ((clean.drop 3).dropWhile isJsWs)⟩
    else ⟨clean⟩

/-- The two selectable AI providers (`AISettings.provider`). -/
inductive Provider where
  | gemini
  | custom
deriving DecidableEq

/-- `AISettings` from `types.ts`. `baseUrl` and `customApiKey` are optional. -/
structure AISettings where
  provider : Provider
  baseUrl : Option String
  customApiKey : Option String
  modelName : String
  temperature : Rat
  tutorPersona : String

/-- A part of a structured prompt (`{ parts: [...] }`). -/
inductive PromptPart where
  | text (s : String)
  | inlineData (data : String) (mimeType : String)

/-- A prompt as accepted by `callAI`: plain text or a multi-part payload. -/
inductive Prompt where
  | text (s : String)
  | parts (ps : List PromptPart)

/-- A chat-completion message `{role, content}`. -/
structure ChatMsg where
  role : String
  content : String

/-- One turn of Gemini-format chat history (`{role, parts:[{text}]}`). -/
structure ChatTurn where
  role : String
  text : String

/-- An outbound network call, recorded in the trace of every operation. -/
inductive NetCall where
  | gemini (model : String) (prompt : Prompt) (temperature : Rat)
      (schema : Option String) (tools : Bool)
  | geminiOcr (model : String) (image : String) (mimeType : String)
      (instruction : String)
  | geminiChat (model : String) (history : List ChatTurn)
      (systemInstruction : String) (temperature : Rat) (message : String)
  | fetchPost (endpoint : String) (apiKey : String) (model : String)
      (messages : List ChatMsg) (temperature : Rat)

/-- A failure of the network/provider: transport rejection or non-2xx HTTP. -/
inductive NetErr where
  | transport
  | httpStatus (statusText : String)
deriving DecidableEq

/-- Errors raised by the gateway and the domain operations. `typeError` is
the JavaScript `TypeError` thrown by a property access on `null`. -/
inductive AIError where
  | config (msg : String)
  | network (e : NetErr)
  | parse
  | typeError
  | domain (msg : String)
deriving DecidableEq

/-- Is the result of an operation a raised error? -/
def isErr {α : Type} : Except AIError α → Bool
  | .error _ => true
  | .ok _ => false

/-- The network oracle: what each outbound call would return. An operation
under test is quantified over all oracles. -/
def Net : Type := NetCall → Except NetErr String

/-- `DEFAULT_MODEL` from the source. -/
def DEFAULT_MODEL : String := "gemini-2.5-flash"

/-- `settings?.provider || 'gemini'`. -/
def providerOf : Option AISettings → Provider
  | none => .gemini
  | some s => s.provider

/-- `settings?.modelName || DEFAULT_MODEL` (empty model name is falsy). -/
def modelOf : Option AISettings → String
  | none => DEFAULT_MODEL
  | some s => jsOrStr s.modelName DEFAULT_MODEL

/-- `settings?.temperature ?? 0.7`. -/
def tempOf : Option AISettings → Rat
  | none => mkRat 7 10
  | some s => s.temperature

/-- JavaScript falsiness of an optional string (`undefined` or `""`). -/
def strFalsy : Option String → Bool
  | none => true
  | some s => s == ""

/-- Does the string end with `/`? (`baseUrl.endsWith('/')`). -/
def endsWithSlash (s : String) : Bool :=
  match s.data.reverse with
  | [] => false
  | c :: _ => c = '/'

/-- `{baseUrl}/chat/completions` with trailing-slash normalization. -/
def chatEndpoint (baseUrl : String) : String :=
  if endsWithSlash baseUrl then baseUrl ++ "chat/completions"
  else baseUrl ++ "/chat/completions"

/-- Adapt a prompt to a single chat-completion user message; a multi-part
prompt keeps its first truthy text part, binary parts degrade to a
placeholder. -/
def promptMessages : Prompt → List ChatMsg
  | .text s => [⟨"user", s⟩]
  | .parts ps =>
    match ps.find? (fun p => match p with | .text t => !(t == "") | _ => false) with
    | some (.text t) => [⟨"user", t⟩]
    | _ => [⟨"user", "Content not supported for custom provider yet"⟩]

/-- The advisory system message appended on the custom path when a JSON
schema was requested. -/
def schemaMessages : Option String → List ChatMsg
  | none => []
  | some sch =>
    [⟨"system", "You must respond with valid JSON strictly matching this schema structure: " ++ sch⟩]

/-- The Gemini branch of `callAI`: one structured-generation call; the
response text is returned, a thrown error is rethrown. -/
def geminiCall (prompt : Prompt) (settings : Option AISettings)
    (schema : Option String) (tools : Bool) (net : Net) :
    Except AIError String × List NetCall :=
  let call := NetCall.gemini (modelOf settings) prompt (tempOf settings) schema tools
  match net call with
  | .ok t => (.ok t, [call])
  | .error e => (.error (.network e), [call])

/-- The custom branch of `callAI` after the credentials check: adapt the
prompt to messages, POST to `{baseUrl}/chat/completions` with bearer auth. -/
def customCall (prompt : Prompt) (s : AISettings) (schema : Option String)
    (net : Net) : Except AIError String × List NetCall :=
  let messages := promptMessages prompt ++ schemaMessages schema
  let endpoint := chatEndpoint (s.baseUrl.getD "")
  let call := NetCall.fetchPost endpoint (s.customApiKey.getD "")
    (modelOf (some s)) messages (tempOf (some s))
  match net call with
  | .ok t => (.ok t, [call])
  | .error e => (.error (.network e), [call])

/-- `callAI` from the source: route to the provider selected in the
settings; the custom provider first requires `baseUrl` and `customApiKey`
and fails without any network call when either is missing. -/
def callAI (prompt : Prompt) (settings : Option AISettings)
    (schema : Option String) (tools : Bool) (net : Net) :
    Except AIError String × List NetCall :=
  match settings with
  | none => geminiCall prompt none schema tools net
  | some s =>
    match s.provider with
    | .gemini => geminiCall prompt (some s) schema tools net
    | .custom =>
      match strFalsy s.baseUrl || strFalsy s.customApiKey with
      | true => (.error (.config "Missing Base URL or API Key for custom provider"), [])
      | false => customCall prompt s schema net

/-- Is the configuration sufficient for `callAI` to reach the network? -/
def credsOk : Option AISettings → Bool
  | none => true
  | some s =>
    match s.provider with
    | .gemini => true
    | .custom => !(strFalsy s.baseUrl || strFalsy s.customApiKey)

/-- `Article` as constructed at runtime by `searchArticles`: `title` and
`content` are whatever JSON the model element carried (possibly absent). -/
structure Article where
  id : String
  title : Option Json
  content : Option Json
  source : String
  dateAdded : Nat
  type : String

/-- Search prompt on the Gemini branch (with search grounding). -/
def searchPromptGrounded (topic : String) : String :=
  "Find 3 interesting, distinct, and educational short articles or news snippets suitable for an English learner about: \"" ++ topic ++ "\". Format the output strictly as a JSON array where each object has a \x27title\x27 and a \x27content\x27 (at least 3 paragraphs). Return ONLY the raw JSON string."

/-- Search prompt on the custom branch (generated content). -/
def searchPromptGenerate (topic : String) : String :=
  "Write 3 interesting, distinct, and educational short articles suitable for an English learner about: \"" ++ topic ++ "\". Format the output strictly as a JSON array where each object has a \x27title\x27 and a \x27content\x27 (at least 3 paragraphs). Return ONLY the raw JSON string."

/-- Map raw JSON array elements to `Article`s, numbering ids from the
clock; `none` when some property access throws (a `null` element), the
elements being accessed in order as `Array.prototype.map` does. -/
def mapArticles (now : Nat) (label : String) : List Json → Nat → Option (List Article)
  | [], _ => some []
  | a :: rest, i =>
    match jsGet a "title", jsGet a "content" with
    | some ttl, some cnt =>
      match mapArticles now label rest (i + 1) with
      | some arts =>
        some ({ id := toString now ++ toString i, title := ttl, content := cnt,
                source := label, dateAdded := now, type := "web" } :: arts)
      | none => none
    | _, _ => none

/-- Shared tail of `searchArticles`: clean and parse the raw text; a parse
failure or a non-array yields the empty list; a `TypeError` thrown while
mapping the elements, like a gateway error, is caught by the outer handler
and becomes the domain error of the operation. -/
def searchFinish (label : String) (now : Nat) :
    Except AIError String × List NetCall →
    Except AIError (List Article) × List NetCall
  | (.error _, tr) =>
    (.error (.domain "Failed to fetch articles. Please check your AI settings."), tr)
  | (.ok raw, tr) =>
    match jsonParse (cleanJsonText raw) with
    | none => (.ok [], tr)
    | some (Json.arr elems) =>
      match mapArticles now label elems 0 with
      | some arts => (.ok arts, tr)
      | none =>
        (.error (.domain "Failed to fetch articles. Please check your AI settings."), tr)
    | some _ => (.ok [], tr)

/-- `searchArticles`: Gemini uses the search-grounding tool and labels
results "Google Search"; the custom provider generates content labelled
"AI Generated". -/
def searchArticles (topic : String) (settings : Option AISettings) (now : Nat)
    (net : Net) : Except AIError (List Article) × List NetCall :=
  match providerOf settings with
  | .gemini =>
    searchFinish "Google Search" now
      (callAI (.text (searchPromptGrounded topic)) settings none true net)
  | .custom =>
    searchFinish "AI Generated" now
      (callAI (.text (searchPromptGenerate topic)) settings none false net)

/-- The OCR instruction text sent alongside the image. -/
def ocrInstruction : String :=
  "Transcribe the English text from this image accurately. Preserve paragraph structure. Do not add any commentary."

/-- `extractTextFromImage`: unsupported on the custom provider (placeholder
string, no network call); on Gemini a direct structured-generation call. -/
def extractTextFromImage (base64Image : String) (mimeType : String)
    (settings : Option AISettings) (net : Net) :
    Except AIError String × List NetCall :=
  match providerOf settings with
  | .custom =>
    (.ok "OCR is currently optimized for Gemini Provider. Please switch to Gemini for image scanning.", [])
  | .gemini =>
    let call := NetCall.geminiOcr (modelOf settings) base64Image mimeType ocrInstruction
    match net call with
    | .ok t => (.ok t, [call])
    | .error _ => (.error (.domain "Failed to extract text from image."), [call])

/-- Prompt for `processImportedText` (raw text truncated to 15000 chars). -/
def importPrompt (fileName : String) (truncated : String) : String :=
  "I have imported text from a file named \"" ++ fileName ++ "\". The raw text is: \"\"\"" ++ truncated ++ "\"\"\" Please format this into a clean, readable English article. 1. Create a suitable Title. 2. Clean up the Content (remove weird spacing). 3. Return strictly JSON with title and content."

/-- Stringified response schema for `processImportedText`. -/
def importSchema : String :=
  "object with required string properties title and content"

/-- `processImportedText`: on success `{title||fileName, content||rawText}`
from the parsed response; on any failure the `{fileName, rawText}` fallback
so import never blocks. -/
def processImportedText (rawText : String) (fileName : String)
    (settings : Option AISettings) (net : Net) :
    Except AIError (Json × Json) × List NetCall :=
  match callAI (.text (importPrompt fileName (rawText.take 15000))) settings
      (some importSchema) false net with
  | (.error _, tr) => (.ok (Json.str fileName, Json.str rawText), tr)
  | (.ok t, tr) =>
    match jsonParse (cleanJsonText t) with
    | none => (.ok (Json.str fileName, Json.str rawText), tr)
    | some d =>
      match jsGet d "title", jsGet d "content" with
      | some ttl, some cnt =>
        (.ok (jsOr ttl (Json.str fileName), jsOr cnt (Json.str rawText)), tr)
      | _, _ => (.ok (Json.str fileName, Json.str rawText), tr)

/-- Prompt for `defineWord`, with the contextual or common-usage variant. -/
def defineWordPrompt (word : String) (contextSentence : Option String) : String :=
  let contextPrompt :=
    match contextSentence with
    | some c => "based on this context: \"" ++ c ++ "\""
    | none => "based on common usage"
  "Define the word \"" ++ word ++ "\" " ++ contextPrompt ++ ". The user is a Chinese native speaker. Return the result in JSON. Include phonetic (IPA), Chinese meaning, English definition, part of speech, CEFR level, example sentence. Also include \x27synonyms\x27 (max 3), \x27antonyms\x27 (max 3), and \x27relatedWords\x27 (max 3, e.g. root words)."

/-- Stringified response schema for `defineWord`. -/
def defineWordSchema : String :=
  "object with string properties word, phonetic, chineseMeaning, englishDefinition, exampleSentence, partOfSpeech, level and string-array properties synonyms, antonyms, relatedWords; required: word, chineseMeaning, englishDefinition, level"

/-- `defineWord`: the parsed JSON is returned unchecked (the source casts it
to `WordDefinition` without validation); any error becomes the domain error. -/
def defineWord (word : String) (contextSentence : Option String)
    (settings : Option AISettings) (net : Net) :
    Except AIError Json × List NetCall :=
  match callAI (.text (defineWordPrompt word contextSentence)) settings
      (some defineWordSchema) false net with
  | (.error _, tr) => (.error (.domain "Failed to define word."), tr)
  | (.ok t, tr) =>
    match jsonParse (cleanJsonText t) with
    | none => (.error (.domain "Failed to define word."), tr)
    | some data => (.ok data, tr)

/-- Prompt for `translateText`. -/
def translatePrompt (text : String) : String :=
  "Translate the following English text into natural, fluent Chinese. Text: \"\"\"" ++ text ++ "\"\"\""

/-- `translateText`: no schema, raw text returned verbatim; any error
becomes the domain error. -/
def translateText (text : String) (settings : Option AISettings) (net : Net) :
    Except AIError String × List NetCall :=
  match callAI (.text (translatePrompt text)) settings none false net with
  | (.error _, tr) => (.error (.domain "Failed to translate text."), tr)
  | (.ok t, tr) => (.ok t, tr)

/-- Prompt for `assessLevel`. -/
def assessPrompt (vocabularyList : List String) : String :=
  "Here is a list of words an English learner is currently studying: " ++ String.intercalate ", " vocabularyList ++ ". Based on the complexity and rarity of these words, estimate their CEFR English level (A1, A2, B1, B2, C1, C2). Return ONLY the level code (e.g. \"B1\")."

/-- `assessLevel`: the empty list short-circuits to "Unknown" with no
network call; any failure (and an empty reply) also yields "Unknown". -/
def assessLevel (vocabularyList : List String) (settings : Option AISettings)
    (net : Net) : Except AIError String × List NetCall :=
  match vocabularyList with
  | [] => (.ok "Unknown", [])
  | _ =>
    match callAI (.text (assessPrompt vocabularyList)) settings none false net with
    | (.error _, tr) => (.ok "Unknown", tr)
    | (.ok t, tr) => (.ok (jsOrStr (trimStr t) "Unknown"), tr)

/-- The quiz question as constructed at runtime by `generateQuizForWord`:
`question`, `options` and `correctOptionIndex` are copied verbatim from the
JSON response of the model (possibly absent, unvalidated). -/
structure RawQuizQuestion where
  id : String
  type : String
  question : Option Json
  options : Option Json
  correctOptionIndex : Option Json
  explanation : String

/-- Prompt for `generateQuizForWord`. -/
def quizPrompt (word : String) : String :=
  "Create a multiple-choice fill-in-the-blank question to test the understanding of the English word \"" ++ word ++ "\". 1. Create a sentence where \"" ++ word ++ "\" fits perfectly, but replace the word with \"______\". 2. Provide 4 options: the correct word (\"" ++ word ++ "\"), and 3 distinct incorrect words. 3. Return strictly JSON with question, options, correctOptionIndex."

/-- Stringified response schema for `generateQuizForWord`. -/
def quizSchema : String :=
  "object with string question, string-array options, integer correctOptionIndex; all required"

/-- `generateQuizForWord`: builds the question record from the parsed
response without validating the index; errors — the parse failure and the
`TypeError` a property access throws on a parsed `null` included — are
rethrown unchanged. -/
def generateQuizForWord (word : String) (settings : Option AISettings)
    (now : Nat) (net : Net) : Except AIError RawQuizQuestion × List NetCall :=
  match callAI (.text (quizPrompt word)) settings (some quizSchema) false net with
  | (.error e, tr) => (.error e, tr)
  | (.ok t, tr) =>
    match jsonParse (cleanJsonText t) with
    | none => (.error .parse, tr)
    | some data =>
      match jsGet data "question", jsGet data "options",
          jsGet data "correctOptionIndex" with
      | some q, some o, some c =>
        (.ok { id := toString now, type := "fill-blank",
               question := q, options := o, correctOptionIndex := c,
               explanation := "The correct answer is " ++ word ++ "." }, tr)
      | _, _, _ => (.error .typeError, tr)

/-- Prompt for `generateExam` (recent-words sample is the last 30). -/
def examPrompt (level : String) (knownWordsSample : String) (req : String) : String :=
  "Create a 5-question English exam for a student at level " ++ level ++ ". User\x27s recent vocabulary: " ++ knownWordsSample ++ ". User\x27s specific requirements: " ++ req ++ ". Include a mix of types: \x27phonetic-match\x27, \x27translation-en-zh\x27, \x27fill-blank\x27. Return strictly a JSON Array of objects with id, type, question, options, correctOptionIndex, explanation."

/-- Stringified response schema for `generateExam`. -/
def examSchema : String :=
  "array of objects with id, type, question, options, correctOptionIndex, explanation; all required"

/-- `requirements || "General practice"` (absent or empty is falsy). -/
def examReq : Option String → String
  | some r => jsOrStr r "General practice"
  | none => "General practice"

/-- `generateExam`: the parsed JSON is returned unchecked; any error (call
or parse) becomes the domain error. -/
def generateExam (level : String) (knownWords : List String)
    (requirements : Option String) (settings : Option AISettings) (net : Net) :
    Except AIError Json × List NetCall :=
  match callAI (.text (examPrompt level
      (String.intercalate ", " (knownWords.drop (knownWords.length - 30)))
      (examReq requirements))) settings (some examSchema) false net with
  | (.error _, tr) => (.error (.domain "Failed to generate exam."), tr)
  | (.ok t, tr) =>
    match jsonParse (cleanJsonText t) with
    | none => (.error (.domain "Failed to generate exam."), tr)
    | some qs => (.ok qs, tr)

/-- The default tutor persona (`settings?.tutorPersona || ...`). -/
def defaultPersona : String := "You are a helpful English Tutor."

/-- `settings?.tutorPersona || defaultPersona`. -/
def personaOf : Option AISettings → String
  | none => defaultPersona
  | some s => jsOrStr s.tutorPersona defaultPersona

/-- The Gemini branch of `chatWithTutor`: a chat session with the persona
and user context as system instruction; errors propagate unwrapped. -/
def chatGemini (history : List ChatTurn) (newMessage : String)
    (userStatsContext : String) (settings : Option AISettings) (net : Net) :
    Except AIError String × List NetCall :=
  let call := NetCall.geminiChat (modelOf settings) history
    (personaOf settings ++ " User Context: " ++ userStatsContext ++ ".")
    (tempOf settings) newMessage
  match net call with
  | .ok t => (.ok t, [call])
  | .error e => (.error (.network e), [call])

/-- `chatWithTutor`: the custom provider checks credentials itself, maps
Gemini history roles to chat-completion roles, and swallows fetch failures
into fallback strings; the Gemini branch propagates errors. -/
def chatWithTutor (history : List ChatTurn) (newMessage : String)
    (userStatsContext : String) (settings : Option AISettings) (net : Net) :
    Except AIError String × List NetCall :=
  match settings with
  | some s =>
    match s.provider with
    | .custom =>
      match strFalsy s.baseUrl || strFalsy s.customApiKey with
      | true => (.error (.config "Missing credentials"), [])
      | false =>
        let persona := jsOrStr s.tutorPersona defaultPersona
        let messages : List ChatMsg :=
          ⟨"system", persona ++ " User Context: " ++ userStatsContext⟩ ::
            (history.map fun h =>
              ⟨if h.role == "model" then "assistant" else "user", h.text⟩) ++
            [⟨"user", newMessage⟩]
        let endpoint := chatEndpoint (s.baseUrl.getD "")
        let call := NetCall.fetchPost endpoint (s.customApiKey.getD "")
          s.modelName messages s.temperature
        match net call with
        | .ok t => (.ok (jsOrStr t "Error: No response."), [call])
        | .error _ =>
          (.ok "I\x27m having trouble connecting to your custom AI provider.", [call])
    | .gemini => chatGemini history newMessage userStatsContext (some s) net
  | none => chatGemini history newMessage userStatsContext none net

/-- `SavedWord` from `types.ts`: a `WordDefinition` plus id, save timestamp
and review counter (a JavaScript number, modelled as `Int`). -/
structure SavedWord where
  id : String
  word : String
  phonetic : String
  chineseMeaning : String
  englishDefinition : String
  exampleSentence : String
  partOfSpeech : String
  level : String
  synonyms : Option (List String)
  antonyms : Option (List String)
  relatedWords : Option (List String)
  dateLearned : Nat
  reviewCount : Int
deriving DecidableEq

/-- Model of `String.prototype.toLowerCase` (per-character lowering),
written over the character list so it evaluates by reduction. -/
def toLowerStr (s : String) : String :=
  ⟨s.data.map Char.toLower⟩

/-- `handleSaveWord` from the app: saving is a no-op when a word with the
same text (case-insensitive) is already present, otherwise the word is
prepended. -/
def handleSaveWord (word : SavedWord) (prev : List SavedWord) : List SavedWord :=
  if prev.any (fun w => toLowerStr w.word == toLowerStr word.word) then prev
  else word :: prev

/-- `handleQuizResult` from the app: increment the review count of the matching word; on failure decrement
clamped at zero. -/
def handleQuizResult (wordId : String) (success : Bool)
    (prev : List SavedWord) : List SavedWord :=
  prev.map fun w =>
    if w.id == wordId then
      { w with reviewCount :=
          if success then w.reviewCount + 1 else max 0 (w.reviewCount - 1) }
    else w

/-- `handleDeleteWord` from the app: point deletion by identifier. -/
def handleDeleteWord (id : String) (prev : List SavedWord) : List SavedWord :=
  prev.filter fun w => w.id != id

/-- Saved-word store states reachable by the mutations of the app. Every creation
site in the source (`QuickTranslator.handleTranslate`,
`ArticleReader`/`GlobalTranslator` save paths) constructs the inserted word
with `reviewCount: 0`, which the `save` constructor records. -/
inductive ReachableWords : List SavedWord → Prop
  | init : ReachableWords []
  | save (w : SavedWord) (s : List SavedWord) :
      ReachableWords s → w.reviewCount = 0 → ReachableWords (handleSaveWord w s)
  | quiz (wordId : String) (success : Bool) (s : List SavedWord) :
      ReachableWords s → ReachableWords (handleQuizResult wordId success s)
  | delete (id : String) (s : List SavedWord) :
      ReachableWords s → ReachableWords (handleDeleteWord id s)

/-- Number of saved words whose lower-cased text equals `t`. -/
def countMatching (l : List SavedWord) (t : String) : Nat :=
  (l.filter fun w => toLowerStr w.word == t).length

/-- Apply a sequence of save operations to the empty store. -/
def applySaves (saves : List SavedWord) : List SavedWord :=
  saves.foldl (fun acc w => handleSaveWord w acc) []

/-- `QuizQuestion` from `types.ts`, as consumed by `ExamMode`. -/
structure QuizQuestion where
  id : String
  type : String
  question : String
  options : List String
  correctOptionIndex : Int
  explanation : Option String

/-- A recorded mistake `{question, correctAns}`; the correct answer is
`undefined` when the stored index is out of range. -/
structure Mistake where
  question : String
  correctAns : Option String

/-- `ExamResult` from `types.ts`; `score` is a JavaScript number. -/
structure ExamResult where
  id : String
  date : Nat
  score : Rat
  totalQuestions : Nat
  mistakes : List Mistake
  type : String

/-- JavaScript array index with an `Int` subscript: `undefined` when
negative or past the end. -/
def optionAt (opts : List String) (i : Int) : Option String :=
  if i < 0 then none else opts.get? i.toNat

/-- The grading loop of `calculateResult`: walk the questions with their
answers, counting correct ones and pushing a mistake per incorrect one. -/
def gradeList : List QuizQuestion → List Int → Nat × List Mistake
  | [], _ => (0, [])
  | q :: qs, ans =>
    let r := gradeList qs ans.tail
    if ans.head? == some q.correctOptionIndex then (r.1 + 1, r.2)
    else
      (r.1, { question := q.question,
              correctAns := optionAt q.options q.correctOptionIndex } :: r.2)

/-- `calculateResult` from `ExamMode`: score as a percentage of correct
answers, with the mistakes list and question count. -/
def calculateResult (questions : List QuizQuestion) (answers : List Int)
    (now : Nat) : ExamResult :=
  let r := gradeList questions answers
  { id := toString now, date := now,
    score := ((r.1 : Rat) / (questions.length : Rat)) * 100,
    totalQuestions := questions.length, mistakes := r.2,
    type := "General AI Quiz" }

/-- Specification count of correctly answered questions. -/
def correctCount (questions : List QuizQuestion) (answers : List Int) : Nat :=
  ((questions.zip answers).filter fun p => p.2 == p.1.correctOptionIndex).length

/-- Specification of the mistakes list: one `{question, correct answer}`
entry per incorrectly answered question, in order. -/
def mistakesSpec (questions : List QuizQuestion) (answers : List Int) :
    List Mistake :=
  ((questions.zip answers).filter fun p => !(p.2 == p.1.correctOptionIndex)).map
    fun p => { question := p.1.question,
               correctAns := optionAt p.1.options p.1.correctOptionIndex }

/-- The quiz-question invariant claimed by the spec, on the raw JSON fields:
the index is a non-negative integer, in range for the options array, and the
option there is the target word up to case. -/
def quizFieldsInv (word : String) (optsJ idxJ : Option Json) : Bool :=
  match idxJ, optsJ with
  | some (Json.num i), some (Json.arr opts) =>
    i.den == 1 && decide (0 ≤ i.num) &&
      (match opts.get? i.num.toNat with
       | some (Json.str w) => toLowerStr w == toLowerStr word
       | _ => false)
  | _, _ => false

/-- The quiz invariant of the spec on a constructed `RawQuizQuestion`. -/
def quizInvariant (word : String) (q : RawQuizQuestion) : Bool :=
  quizFieldsInv word q.options q.correctOptionIndex

/-- A network oracle with a constant behaviour. -/
def constNet (r : Except NetErr String) : Net := fun _ => r

/-- A saved word with the given id and text and all other fields defaulted;
`reviewCount` starts at 0 as at every creation site in the source. -/
def mkSavedWord (id word : String) : SavedWord :=
  { id := id, word := word, phonetic := "", chineseMeaning := "",
    englishDefinition := "", exampleSentence := "", partOfSpeech := "",
    level := "A1", synonyms := none, antonyms := none, relatedWords := none,
    dateLearned := 0, reviewCount := 0 }

/-- Custom-provider settings with the base URL missing. -/
def missingCredSettings : AISettings :=
  { provider := .custom, baseUrl := none, customApiKey := some "sk-demo",
    modelName := "demo-model", temperature := 1, tutorPersona := "persona" }

/-- Fully configured custom-provider settings. -/
def customSettings : AISettings :=
  { provider := .custom, baseUrl := some "https://api.example.com",
    customApiKey := some "sk-demo", modelName := "demo-model",
    temperature := 1, tutorPersona := "persona" }

/-- A fenced model response with the `json` tag. -/
def fencedJsonTagged : String := "```json\n\x7b\"a\":1\x7d\n```"

/-- A fenced model response without a language tag. -/
def fencedUntagged : String := "```\n\x7b\"a\":1\x7d\n```"

/-- An unfenced JSON model response. -/
def bareJson : String := "\x7b\"a\":1\x7d"

/-- The raw search response from the scenario in the spec. -/
def searchSample : String := "[\x7b\"title\":\"A\",\"content\":\"B C D\"\x7d]"

/-- A quiz response whose correct-option index is out of range. -/
def quizBadJson : String :=
  "\x7b\"question\":\"q\",\"options\":[\"a\",\"b\"],\"correctOptionIndex\":5\x7d"

/-- A well-formed quiz response for the word "apple". -/
def quizGoodJson : String :=
  "\x7b\"question\":\"The ______ is red.\",\"options\":[\"sky\",\"Apple\",\"grass\",\"sea\"],\"correctOptionIndex\":1\x7d"

/-- Two concrete exam questions. -/
def demoQs : List QuizQuestion :=
  [{ id := "1", type := "fill-blank", question := "Pick A", options := ["A", "B"],
     correctOptionIndex := 0, explanation := none },
   { id := "2", type := "fill-blank", question := "Pick C", options := ["C", "D"],
     correctOptionIndex := 0, explanation := none }]

/-- Concrete answers: the first correct, the second wrong. -/
def demoAns : List Int := [0, 1]

/-- The gateway makes at most one network call per invocation. -/
theorem callAI_trace_le (p : Prompt) (s : Option AISettings)
    (sch : Option String) (tl : Bool) (net : Net) :
    (callAI p s sch tl net).2.length ≤ 1 := by
  rcases s with _ | s
  · unfold callAI geminiCall
    rcases h : net (NetCall.gemini (modelOf none) p (tempOf none) sch tl) <;> simp [h]
  · unfold callAI
    rcases hp : s.provider
    · unfold geminiCall
      rcases h : net (NetCall.gemini (modelOf (some s)) p (tempOf (some s)) sch tl) <;>
        simp [hp, h]
    · rcases hb : strFalsy s.baseUrl || strFalsy s.customApiKey
      · unfold customCall
        rcases h : net (NetCall.fetchPost (chatEndpoint (s.baseUrl.getD ""))
          (s.customApiKey.getD "") (modelOf (some s))
          (promptMessages p ++ schemaMessages sch) (tempOf (some s))) <;> simp [hp, hb, h]
      · simp [hp, hb]

/-- When every network call fails, the gateway raises (it never falls back). -/
theorem callAI_isErr_netErr (p : Prompt) (s : Option AISettings)
    (sch : Option String) (tl : Bool) (net : Net) (e : NetErr)
    (h : ∀ c, net c = .error e) :
    isErr (callAI p s sch tl net).1 = true := by
  rcases s with _ | s
  · simp [callAI, geminiCall, h, isErr]
  · rcases hp : s.provider
    · simp [callAI, geminiCall, hp, h, isErr]
    · rcases hb : strFalsy s.baseUrl || strFalsy s.customApiKey
      · simp [callAI, customCall, hp, hb, h, isErr]
      · simp [callAI, hp, hb, isErr]

/-- When the configuration is sufficient and every network call succeeds
with text `t`, the gateway returns `t`. -/
theorem callAI_netOk (p : Prompt) (s : Option AISettings) (sch : Option String)
    (tl : Bool) (net : Net) (t : String) (hc : credsOk s = true)
    (h : ∀ c, net c = .ok t) :
    (callAI p s sch tl net).1 = .ok t := by
  rcases s with _ | s
  · simp [callAI, geminiCall, h]
  · rcases hp : s.provider
    · simp [callAI, geminiCall, hp, h]
    · rcases hb : strFalsy s.baseUrl || strFalsy s.customApiKey
      · simp [callAI, customCall, hp, hb, h]
      · simp [credsOk, hp, hb] at hc

theorem countMatching_nil (t : String) : countMatching [] t = 0 := rfl

theorem countMatching_cons (w : SavedWord) (l : List SavedWord) (t : String) :
    countMatching (w :: l) t =
      (if toLowerStr w.word == t then 1 else 0) + countMatching l t := by
  simp only [countMatching, List.filter_cons]
  split <;> simp [Nat.add_comm]

theorem countMatching_zero (l : List SavedWord) (t : String)
    (h : ∀ v ∈ l, ¬ toLowerStr v.word = t) : countMatching l t = 0 := by
  induction l with
  | nil => rfl
  | cons w l ih =>
    have hw : (toLowerStr w.word == t) = false :=
      beq_eq_false_iff_ne.mpr (h w (List.mem_cons_self w l))
    rw [countMatching_cons, hw]
    simpa using ih fun v hv => h v (List.mem_cons_of_mem _ hv)

/-- One save step preserves "at most one saved word per text". -/
theorem handleSaveWord_count_le (w : SavedWord) (acc : List SavedWord)
    (t : String) (h : countMatching acc t ≤ 1) :
    countMatching (handleSaveWord w acc) t ≤ 1 := by
  unfold handleSaveWord
  rcases ha : acc.any (fun v => toLowerStr v.word == toLowerStr w.word)
  · simp only [ha, Bool.false_eq_true, if_false]
    rw [countMatching_cons]
    rcases hw : toLowerStr w.word == t
    · simpa using h
    · have ht : toLowerStr w.word = t := by simpa using hw
      have hzero : countMatching acc t = 0 := by
        apply countMatching_zero
        intro v hv
        have h2 := (List.any_eq_false.mp ha) v hv
        rw [Bool.not_eq_true, beq_eq_false_iff_ne] at h2
        rw [← ht]
        exact h2
      simp [hzero]
  · simpa [ha] using h

/-- Claim C1: saving a word whose text case-insensitively matches an
already-saved word returns the collection unchanged; saving a fresh word
prepends it, yielding exactly one saved word with that text; hence every
sequence of saves from the empty store keeps at most one saved word per
distinct lower-cased text. -/
theorem c1_saved_word_uniqueness :
    (∀ (w : SavedWord) (prev : List SavedWord),
      (∃ v ∈ prev, toLowerStr v.word = toLowerStr w.word) →
        handleSaveWord w prev = prev) ∧
    (∀ (w : SavedWord) (prev : List SavedWord),
      (∀ v ∈ prev, ¬ toLowerStr v.word = toLowerStr w.word) →
        handleSaveWord w prev = w :: prev ∧
        countMatching (handleSaveWord w prev) (toLowerStr w.word) = 1) ∧
    (∀ (saves : List SavedWord) (t : String),
      countMatching (applySaves saves) t ≤ 1) := by
  refine ⟨?_, ?_, ?_⟩
  · intro w prev ⟨v, hv, hveq⟩
    have : prev.any (fun u => toLowerStr u.word == toLowerStr w.word) = true :=
      List.any_eq_true.mpr ⟨v, hv, beq_iff_eq.mpr hveq⟩
    simp [handleSaveWord, this]
  · intro w prev h
    have ha : prev.any (fun u => toLowerStr u.word == toLowerStr w.word) = false :=
      List.any_eq_false.mpr fun v hv => by
        simpa using h v hv
    have hcons : handleSaveWord w prev = w :: prev := by
      simp [handleSaveWord, ha]
    refine ⟨hcons, ?_⟩
    rw [hcons, countMatching_cons, countMatching_zero prev _ h]
    simp
  · intro saves t
    suffices h : ∀ acc, (∀ u, countMatching acc u ≤ 1) →
        ∀ u, countMatching (saves.foldl (fun a w => handleSaveWord w a) acc) u ≤ 1 by
      exact h [] (fun u => by simp [countMatching_nil]) t
    induction saves with
    | nil => intro acc hacc u; exact hacc u
    | cons w ws ih =>
      intro acc hacc u
      simp only [List.foldl_cons]
      exact ih (handleSaveWord w acc) (fun u' => handleSaveWord_count_le w acc u' (hacc u')) u

/-- Witness for C1 at concrete inputs: saving "Apple" over a saved "apple"
is a no-op, saving "apple" into the empty store yields exactly one entry,
and a concrete save sequence keeps the count at one. -/
theorem c1_saved_word_uniqueness_witness :
    handleSaveWord (mkSavedWord "2" "Apple") [mkSavedWord "1" "apple"] =
      [mkSavedWord "1" "apple"] ∧
    handleSaveWord (mkSavedWord "1" "apple") [] = [mkSavedWord "1" "apple"] ∧
    countMatching (handleSaveWord (mkSavedWord "1" "apple") [])
      (toLowerStr (mkSavedWord "1" "apple").word) = 1 ∧
    countMatching
      (applySaves [mkSavedWord "1" "apple", mkSavedWord "2" "Apple"]) "apple" ≤ 1 := by
  refine ⟨?_, ?_, ?_, ?_⟩
  · exact c1_saved_word_uniqueness.1 (mkSavedWord "2" "Apple")
      [mkSavedWord "1" "apple"] ⟨mkSavedWord "1" "apple", by simp, by decide⟩
  · exact (c1_saved_word_uniqueness.2.1 (mkSavedWord "1" "apple") [] (by simp)).1
  · exact (c1_saved_word_uniqueness.2.1 (mkSavedWord "1" "apple") [] (by simp)).2
  · exact c1_saved_word_uniqueness.2.2 [mkSavedWord "1" "apple", mkSavedWord "2" "Apple"] "apple"

/-- Claim C7: assessing the empty word list returns "Unknown" with no
network call; for a non-empty list, any failure of the underlying provider
call also yields "Unknown" and no raised error. -/
theorem c7_assess_level_unknown :
    (∀ (s : Option AISettings) (net : Net),
      assessLevel [] s net = (.ok "Unknown", [])) ∧
    (∀ (l : List String) (s : Option AISettings) (net : Net) (e : NetErr),
      l ≠ [] → (∀ c, net c = .error e) →
      (assessLevel l s net).1 = .ok "Unknown") := by
  constructor
  · intro s net; rfl
  · intro l s net e hl hnet
    rcases l with _ | ⟨w, ws⟩
    · exact absurd rfl hl
    · unfold assessLevel
      rcases hc : callAI (.text (assessPrompt (w :: ws))) s none false net with ⟨r, tr⟩
      have hr := callAI_isErr_netErr (.text (assessPrompt (w :: ws))) s none false net e hnet
      rw [hc] at hr
      cases r with
      | error e' => simp
      | ok t => simp [isErr] at hr

/-- Witness for C7: the empty list with any oracle, and a failing oracle on
a singleton list. -/
theorem c7_assess_level_unknown_witness :
    assessLevel [] none (constNet (.ok "B2")) = (.ok "Unknown", []) ∧
    (assessLevel ["ephemeral"] none (constNet (.error .transport))).1 = .ok "Unknown" :=
  ⟨c7_assess_level_unknown.1 none (constNet (.ok "B2")),
   c7_assess_level_unknown.2 ["ephemeral"] none (constNet (.error .transport))
     .transport (List.cons_ne_nil _ _) (fun _ => rfl)⟩

/-- Claim C10: on every reachable saved-word store state, the review count of every word is non-negative — insertion starts it at 0, the quiz-result
update increments on success and decrements clamped at zero on failure, and
deletion removes entries. -/
theorem c10_review_count_nonneg :
    ∀ (s : List SavedWord), ReachableWords s → ∀ w ∈ s, 0 ≤ w.reviewCount := by
  intro s hs
  induction hs with
  | init => intro w hw; exact absurd hw (List.not_mem_nil w)
  | save v s' hs' hv ih =>
    intro w hw
    unfold handleSaveWord at hw
    by_cases ha : s'.any (fun u => toLowerStr u.word == toLowerStr v.word) = true
    · rw [if_pos ha] at hw
      exact ih w hw
    · rw [if_neg ha] at hw
      rcases List.mem_cons.mp hw with h | h
      · rw [h, hv]
      · exact ih w h
  | quiz wordId success s' hs' ih =>
    intro w hw
    unfold handleQuizResult at hw
    rcases List.mem_map.mp hw with ⟨u, hu, hmap⟩
    subst hmap
    by_cases hid : (u.id == wordId) = true
    · rw [if_pos hid]
      rcases success
      · exact le_max_left 0 _
      · have := ih u hu
        simp only []
        omega
    · rw [if_neg hid]
      exact ih u hu
  | delete id s' hs' ih =>
    intro w hw
    exact ih w (List.mem_filter.mp hw).1

/-- Witness for C10: a concrete reachable state (save "apple", then record
one failed quiz on it) on which the theorem applies. -/
theorem c10_review_count_nonneg_witness :
    0 ≤ (mkSavedWord "1" "apple").reviewCount :=
  c10_review_count_nonneg
    (handleQuizResult "1" false (handleSaveWord (mkSavedWord "1" "apple") []))
    (ReachableWords.quiz "1" false _
      (ReachableWords.save (mkSavedWord "1" "apple") [] ReachableWords.init rfl))
    (mkSavedWord "1" "apple")
    (by decide)

theorem gradeList_eq (qs : List QuizQuestion) (ans : List Int)
    (h : ans.length = qs.length) :
    gradeList qs ans = (correctCount qs ans, mistakesSpec qs ans) := by
  induction qs generalizing ans with
  | nil =>
    rcases ans with _ | ⟨a, ans⟩
    · rfl
    · simp at h
  | cons q qs ih =>
    rcases ans with _ | ⟨a, ans⟩
    · simp at h
    · have h2 : ans.length = qs.length := by simpa using h
      rcases hq : a == q.correctOptionIndex
      · simp [gradeList, correctCount, mistakesSpec, ih ans h2, hq]
      · simp [gradeList, correctCount, mistakesSpec, ih ans h2, hq]

theorem correct_mistakes_split (qs : List QuizQuestion) (ans : List Int) :
    correctCount qs ans + (mistakesSpec qs ans).length = (qs.zip ans).length := by
  unfold correctCount mistakesSpec
  rw [List.length_map]
  generalize qs.zip ans = l
  induction l with
  | nil => rfl
  | cons p l ih =>
    rw [List.filter_cons, List.filter_cons]
    rcases hp : p.2 == p.1.correctOptionIndex <;> simp [hp] <;> omega

/-- Claim C5: for an exam of `N` answered questions, the computed result
has `score = 100 * correct / N`, the mistakes list holds one
`{question, correct answer}` entry per incorrectly answered question,
`totalQuestions = N`, and `mistakes.length = N - correct`. -/
theorem c5_exam_result_correct (questions : List QuizQuestion)
    (answers : List Int) (now : Nat)
    (hlen : answers.length = questions.length) (_hne : 0 < questions.length) :
    (calculateResult questions answers now).score =
      100 * (correctCount questions answers : Rat) / (questions.length : Rat) ∧
    (calculateResult questions answers now).mistakes =
      mistakesSpec questions answers ∧
    (calculateResult questions answers now).totalQuestions = questions.length ∧
    (mistakesSpec questions answers).length =
      questions.length - correctCount questions answers := by
  have hg := gradeList_eq questions answers hlen
  refine ⟨?_, ?_, ?_, ?_⟩
  · simp only [calculateResult, hg]
    ring
  · simp [calculateResult, hg]
  · simp [calculateResult]
  · have hsplit := correct_mistakes_split questions answers
    have hz : (questions.zip answers).length = questions.length := by
      rw [List.length_zip, hlen, Nat.min_self]
    omega

/-- Witness for C5 on a concrete two-question exam with one mistake. -/
theorem c5_exam_result_correct_witness :
    (calculateResult demoQs demoAns 5).score =
      100 * (correctCount demoQs demoAns : Rat) / (demoQs.length : Rat) ∧
    (calculateResult demoQs demoAns 5).mistakes = mistakesSpec demoQs demoAns ∧
    (calculateResult demoQs demoAns 5).totalQuestions = demoQs.length ∧
    (mistakesSpec demoQs demoAns).length =
      demoQs.length - correctCount demoQs demoAns :=
  c5_exam_result_correct demoQs demoAns 5 rfl (by decide)

/-- Claim C6: `cleanJsonText` strips an opening fence with or without the
`json` tag plus the closing fence, leaves unfenced text unmodified, and all
three sample inputs parse to the object with field `a` equal to 1. -/
theorem c6_clean_json_cases :
    jsonParse (cleanJsonText fencedJsonTagged) = some (Json.obj [("a", Json.num 1)]) ∧
    jsonParse (cleanJsonText fencedUntagged) = some (Json.obj [("a", Json.num 1)]) ∧
    cleanJsonText bareJson = bareJson ∧
    jsonParse (cleanJsonText bareJson) = some (Json.obj [("a", Json.num 1)]) :=
  ⟨rfl, rfl, rfl, rfl⟩

/-- A property access on an object value never throws and yields the field
lookup. -/
theorem jsGet_of_isObj (a : Json) (k : String) (h : a.isObj = true) :
    jsGet a k = some (a.objField k) := by
  cases a with
  | obj fs => rfl
  | null => simp [Json.isObj] at h
  | bool b => simp [Json.isObj] at h
  | num q => simp [Json.isObj] at h
  | str s2 => simp [Json.isObj] at h
  | arr es => simp [Json.isObj] at h

/-- Mapping an array whose elements are all objects throws no `TypeError`
and yields one article per element. -/
theorem mapArticles_isObj (now : Nat) (label : String) :
    ∀ (elems : List Json) (i : Nat), (∀ a ∈ elems, a.isObj = true) →
      ∃ arts, mapArticles now label elems i = some arts ∧
        arts.length = elems.length := by
  intro elems
  induction elems with
  | nil => intro i _; exact ⟨[], rfl, rfl⟩
  | cons a rest ih =>
    intro i hobj
    obtain ⟨arts, hm, hlen⟩ := ih (i + 1) fun b hb => hobj b (List.mem_cons_of_mem a hb)
    have ha := jsGet_of_isObj a "title" (hobj a (List.mem_cons_self a rest))
    have hc := jsGet_of_isObj a "content" (hobj a (List.mem_cons_self a rest))
    refine ⟨{ id := toString now ++ toString i, title := a.objField "title",
              content := a.objField "content", source := label,
              dateAdded := now, type := "web" } :: arts, ?_, ?_⟩
    · simp [mapArticles, ha, hc, hm]
    · simp [hlen]

theorem searchFinish_fst_ok (label : String) (now : Nat) (t : String)
    (tr : List NetCall) :
    (searchFinish label now (.ok t, tr)).1 =
      (match jsonParse (cleanJsonText t) with
       | none => .ok []
       | some (Json.arr elems) =>
         (match mapArticles now label elems 0 with
          | some arts => .ok arts
          | none =>
            .error (.domain "Failed to fetch articles. Please check your AI settings."))
       | some _ => .ok []) := by
  rcases hj : jsonParse (cleanJsonText t) with _ | j
  · simp [searchFinish, hj]
  · cases j with
    | arr elems =>
      rcases hm : mapArticles now label elems 0 <;> simp [searchFinish, hj, hm]
    | null => simp [searchFinish, hj]
    | bool b => simp [searchFinish, hj]
    | num q => simp [searchFinish, hj]
    | str s2 => simp [searchFinish, hj]
    | obj fs => simp [searchFinish, hj]

/-- With sufficient configuration and an oracle answering `t`, the search
result of the search operation is determined by parsing `t` (with the label of the branch). -/
theorem searchArticles_fst_netOk (topic : String) (s : Option AISettings)
    (now : Nat) (net : Net) (t : String) (hc : credsOk s = true)
    (hnet : ∀ c, net c = .ok t) :
    ∃ label, (searchArticles topic s now net).1 =
      (match jsonParse (cleanJsonText t) with
       | none => .ok []
       | some (Json.arr elems) =>
         (match mapArticles now label elems 0 with
          | some arts => .ok arts
          | none =>
            .error (.domain "Failed to fetch articles. Please check your AI settings."))
       | some _ => .ok []) := by
  unfold searchArticles
  rcases hp : providerOf s
  · refine ⟨"Google Search", ?_⟩
    have hca := callAI_netOk (.text (searchPromptGrounded topic)) s none true net t hc hnet
    rcases hc2 : callAI (.text (searchPromptGrounded topic)) s none true net with ⟨r, tr⟩
    rw [hc2] at hca
    cases r with
    | error e => exact absurd hca (by simp)
    | ok t2 =>
      have ht : t2 = t := by simpa using hca
      subst ht
      simp only [hp]
      exact searchFinish_fst_ok "Google Search" now t2 tr
  · refine ⟨"AI Generated", ?_⟩
    have hca := callAI_netOk (.text (searchPromptGenerate topic)) s none false net t hc hnet
    rcases hc2 : callAI (.text (searchPromptGenerate topic)) s none false net with ⟨r, tr⟩
    rw [hc2] at hca
    cases r with
    | error e => exact absurd hca (by simp)
    | ok t2 =>
      have ht : t2 = t := by simpa using hca
      subst ht
      simp only [hp]
      exact searchFinish_fst_ok "AI Generated" now t2 tr

/-- A search response parsing to an array with a `null` element makes a
property access throw in the mapping step; the outer handler turns it into
the search domain error, exactly as the source does. -/
theorem searchArticles_null_element_throws :
    (searchArticles "t" none 0 (constNet (.ok "[null]"))).1 =
      .error (.domain "Failed to fetch articles. Please check your AI settings.") := rfl

/-- Claim C8: a raw search response that is not parseable JSON, or parses
to a non-array, yields the empty article list with no raised error; a
response parsing to a JSON array of objects yields one article per
element; and the concrete scenario of the spec on the native backend
produces the expected single article. -/
theorem c8_search_articles_parse :
    (∀ (topic : String) (s : Option AISettings) (now : Nat) (net : Net) (t : String),
      credsOk s = true → (∀ c, net c = .ok t) →
      jsonParse (cleanJsonText t) = none →
      (searchArticles topic s now net).1 = .ok []) ∧
    (∀ (topic : String) (s : Option AISettings) (now : Nat) (net : Net)
        (t : String) (j : Json),
      credsOk s = true → (∀ c, net c = .ok t) →
      jsonParse (cleanJsonText t) = some j → j.isArr = false →
      (searchArticles topic s now net).1 = .ok []) ∧
    (∀ (topic : String) (s : Option AISettings) (now : Nat) (net : Net)
        (t : String) (elems : List Json),
      credsOk s = true → (∀ c, net c = .ok t) →
      jsonParse (cleanJsonText t) = some (Json.arr elems) →
      (∀ a ∈ elems, a.isObj = true) →
      ∃ arts, (searchArticles topic s now net).1 = .ok arts ∧
        arts.length = elems.length) ∧
    ((searchArticles "space travel" none 7 (constNet (.ok searchSample))).1 =
      .ok [{ id := "70", title := some (Json.str "A"),
             content := some (Json.str "B C D"), source := "Google Search",
             dateAdded := 7, type := "web" }]) := by
  refine ⟨?_, ?_, ?_, rfl⟩
  · intro topic s now net t hc hnet hparse
    obtain ⟨label, hl⟩ := searchArticles_fst_netOk topic s now net t hc hnet
    rw [hparse] at hl
    exact hl
  · intro topic s now net t j hc hnet hparse hnarr
    obtain ⟨label, hl⟩ := searchArticles_fst_netOk topic s now net t hc hnet
    rw [hparse] at hl
    cases j with
    | arr elems => simp [Json.isArr] at hnarr
    | null => exact hl
    | bool b => exact hl
    | num q => exact hl
    | str s2 => exact hl
    | obj fs => exact hl
  · intro topic s now net t elems hc hnet hparse hobj
    obtain ⟨label, hl⟩ := searchArticles_fst_netOk topic s now net t hc hnet
    rw [hparse] at hl
    obtain ⟨arts, hm, hlen⟩ := mapArticles_isObj now label elems 0 hobj
    simp only [hm] at hl
    exact ⟨arts, hl, hlen⟩

/-- Witness for C8: concrete non-JSON, non-array and object-array responses. -/
theorem c8_search_articles_parse_witness :
    (searchArticles "space" none 0 (constNet (.ok "garbage text"))).1 = .ok [] ∧
    (searchArticles "space" none 0 (constNet (.ok "\"just a string\""))).1 = .ok [] ∧
    (∃ arts, (searchArticles "space" none 0 (constNet (.ok searchSample))).1 = .ok arts ∧
      arts.length = [Json.obj [("title", Json.str "A"), ("content", Json.str "B C D")]].length) :=
  ⟨c8_search_articles_parse.1 "space" none 0 (constNet (.ok "garbage text"))
     "garbage text" rfl (fun _ => rfl) rfl,
   c8_search_articles_parse.2.1 "space" none 0 (constNet (.ok "\"just a string\""))
     "\"just a string\"" (Json.str "just a string") rfl (fun _ => rfl) rfl rfl,
   c8_search_articles_parse.2.2.1 "space" none 0 (constNet (.ok searchSample))
     searchSample [Json.obj [("title", Json.str "A"), ("content", Json.str "B C D")]]
     rfl (fun _ => rfl) rfl
     (by intro a ha; simp at ha; rw [ha]; rfl)⟩

/-- With the custom provider selected and a missing base URL or API key,
the gateway fails with the missing-credentials error and an empty trace. -/
theorem callAI_missing_creds (p : Prompt) (s : AISettings) (sch : Option String)
    (tl : Bool) (net : Net) (hp : s.provider = .custom)
    (hb : (strFalsy s.baseUrl || strFalsy s.customApiKey) = true) :
    callAI p (some s) sch tl net =
      (.error (.config "Missing Base URL or API Key for custom provider"), []) := by
  simp [callAI, hp, hb]

/-- Counterexample to C2 as stated: with the custom provider selected and
`baseUrl` missing, `assessLevel` on a non-empty word list does not fail
with a `ConfigurationError` — it succeeds with "Unknown" (the gateway error
is swallowed), making no network call. -/
theorem c2_missing_config_counterexample :
    assessLevel ["hello"] (some missingCredSettings) (constNet (.ok "B2")) =
      (Except.ok "Unknown", []) ∧
    isErr (assessLevel ["hello"] (some missingCredSettings) (constNet (.ok "B2"))).1 = false :=
  ⟨rfl, rfl⟩

/-- Amended C2: when the custom provider is selected and `baseUrl` or
`customApiKey` is missing, no Domain Operation attempts any network call;
the gateway fails with the missing-credentials `ConfigurationError`, which
`generateQuizForWord` propagates unchanged and `chatWithTutor` raises as
its own credentials error, while search, define, translate and exam fail
with their operation-specific domain errors and `assessLevel`,
`processImportedText` and `extractTextFromImage` return their silent
fallbacks instead of failing. -/
theorem c2_missing_config_amended (s : AISettings)
    (hp : s.provider = .custom)
    (hb : (strFalsy s.baseUrl || strFalsy s.customApiKey) = true)
    (net : Net) (topic word text lvl msg uctx raw fname img mime : String)
    (ctx req : Option String) (words : List String)
    (hist : List ChatTurn) (now : Nat)
    (vocab : List String) (hv : vocab ≠ []) :
    searchArticles topic (some s) now net =
      (.error (.domain "Failed to fetch articles. Please check your AI settings."), []) ∧
    defineWord word ctx (some s) net =
      (.error (.domain "Failed to define word."), []) ∧
    translateText text (some s) net =
      (.error (.domain "Failed to translate text."), []) ∧
    assessLevel vocab (some s) net = (.ok "Unknown", []) ∧
    generateQuizForWord word (some s) now net =
      (.error (.config "Missing Base URL or API Key for custom provider"), []) ∧
    generateExam lvl words req (some s) net =
      (.error (.domain "Failed to generate exam."), []) ∧
    chatWithTutor hist msg uctx (some s) net =
      (.error (.config "Missing credentials"), []) ∧
    processImportedText raw fname (some s) net =
      (.ok (Json.str fname, Json.str raw), []) ∧
    extractTextFromImage img mime (some s) net =
      (.ok "OCR is currently optimized for Gemini Provider. Please switch to Gemini for image scanning.", []) := by
  have hcall := fun p sch tl => callAI_missing_creds p s sch tl net hp hb
  refine ⟨?_, ?_, ?_, ?_, ?_, ?_, ?_, ?_, ?_⟩
  · simp [searchArticles, providerOf, hp, hcall, searchFinish]
  · simp [defineWord, hcall]
  · simp [translateText, hcall]
  · rcases vocab with _ | ⟨w, ws⟩
    · exact absurd rfl hv
    · simp [assessLevel, hcall]
  · simp [generateQuizForWord, hcall]
  · simp [generateExam, hcall]
  · simp [chatWithTutor, hp, hb]
  · simp [processImportedText, hcall]
  · simp [extractTextFromImage, providerOf, hp]

/-- Witness for the amended C2 at concrete inputs. -/
theorem c2_missing_config_amended_witness :
    searchArticles "t" (some missingCredSettings) 3 (constNet (.ok "resp")) =
      (.error (.domain "Failed to fetch articles. Please check your AI settings."), []) ∧
    defineWord "w" none (some missingCredSettings) (constNet (.ok "resp")) =
      (.error (.domain "Failed to define word."), []) ∧
    translateText "tx" (some missingCredSettings) (constNet (.ok "resp")) =
      (.error (.domain "Failed to translate text."), []) ∧
    assessLevel ["hello"] (some missingCredSettings) (constNet (.ok "resp")) =
      (.ok "Unknown", []) ∧
    generateQuizForWord "w" (some missingCredSettings) 3 (constNet (.ok "resp")) =
      (.error (.config "Missing Base URL or API Key for custom provider"), []) ∧
    generateExam "B1" ["w"] none (some missingCredSettings) (constNet (.ok "resp")) =
      (.error (.domain "Failed to generate exam."), []) ∧
    chatWithTutor [] "hi" "ctx" (some missingCredSettings) (constNet (.ok "resp")) =
      (.error (.config "Missing credentials"), []) ∧
    processImportedText "raw" "f.txt" (some missingCredSettings) (constNet (.ok "resp")) =
      (.ok (Json.str "f.txt", Json.str "raw"), []) ∧
    extractTextFromImage "img" "image/png" (some missingCredSettings) (constNet (.ok "resp")) =
      (.ok "OCR is currently optimized for Gemini Provider. Please switch to Gemini for image scanning.", []) :=
  c2_missing_config_amended missingCredSettings rfl rfl (constNet (.ok "resp"))
    "t" "w" "tx" "B1" "hi" "ctx" "raw" "f.txt" "img" "image/png" none none
    ["w"] [] 3 ["hello"] (List.cons_ne_nil _ _)

/-- With sufficient configuration and an oracle answering `t`, the gateway
returns `t` with some single-call trace. -/
theorem callAI_dest (p : Prompt) (s : Option AISettings) (sch : Option String)
    (tl : Bool) (net : Net) (t : String) (hc : credsOk s = true)
    (hnet : ∀ c, net c = .ok t) :
    ∃ tr, callAI p s sch tl net = (.ok t, tr) := by
  have hca := callAI_netOk p s sch tl net t hc hnet
  rcases h : callAI p s sch tl net with ⟨r, tr⟩
  rw [h] at hca
  cases r with
  | error e => exact absurd hca (by simp)
  | ok t2 =>
    refine ⟨tr, ?_⟩
    have ht : t2 = t := by simpa using hca
    rw [ht]

/-- With a response that fails JSON parsing, `defineWord` raises its
domain error. -/
theorem defineWord_parse_none (w : String) (ctx : Option String)
    (s : Option AISettings) (net : Net) (t : String) (hc : credsOk s = true)
    (hnet : ∀ c, net c = .ok t) (hparse : jsonParse (cleanJsonText t) = none) :
    (defineWord w ctx s net).1 = .error (.domain "Failed to define word.") := by
  obtain ⟨tr, htr⟩ := callAI_dest (.text (defineWordPrompt w ctx)) s
    (some defineWordSchema) false net t hc hnet
  simp [defineWord, htr, hparse]

/-- With a response that fails JSON parsing, `generateQuizForWord`
propagates the parse error. -/
theorem generateQuiz_parse_none (w : String) (s : Option AISettings)
    (now : Nat) (net : Net) (t : String) (hc : credsOk s = true)
    (hnet : ∀ c, net c = .ok t) (hparse : jsonParse (cleanJsonText t) = none) :
    (generateQuizForWord w s now net).1 = .error .parse := by
  obtain ⟨tr, htr⟩ := callAI_dest (.text (quizPrompt w)) s (some quizSchema)
    false net t hc hnet
  simp [generateQuizForWord, htr, hparse]

/-- With a response that fails JSON parsing, `generateExam` raises its
domain error. -/
theorem generateExam_parse_none (lvl : String) (words : List String)
    (req : Option String) (s : Option AISettings) (net : Net) (t : String)
    (hc : credsOk s = true) (hnet : ∀ c, net c = .ok t)
    (hparse : jsonParse (cleanJsonText t) = none) :
    (generateExam lvl words req s net).1 =
      .error (.domain "Failed to generate exam.") := by
  obtain ⟨tr, htr⟩ := callAI_dest
    (.text (examPrompt lvl (String.intercalate ", " (words.drop (words.length - 30)))
      (examReq req))) s (some examSchema) false net t hc hnet
  simp [generateExam, htr, hparse]

/-- With a response that fails JSON parsing, `processImportedText` returns
the `{fileName, rawText}` fallback. -/
theorem processImported_parse_none (raw fname : String)
    (s : Option AISettings) (net : Net) (t : String) (hc : credsOk s = true)
    (hnet : ∀ c, net c = .ok t) (hparse : jsonParse (cleanJsonText t) = none) :
    (processImportedText raw fname s net).1 =
      .ok (Json.str fname, Json.str raw) := by
  obtain ⟨tr, htr⟩ := callAI_dest (.text (importPrompt fname (raw.take 15000)))
    s (some importSchema) false net t hc hnet
  simp [processImportedText, htr, hparse]

/-- Counterexample to C3 as stated: `defineWord` is not among the excepted
operations, yet a non-JSON model response is not treated as the empty
object with default fields — the operation raises its domain error. -/
theorem c3_parse_fallback_counterexample :
    (defineWord "hello" none none (constNet (.ok "not json"))).1 =
      Except.error (AIError.domain "Failed to define word.") := rfl

/-- Amended C3: only an empty (falsy) response text is replaced by the
empty-object text by `cleanJsonText` (and that text parses to the empty
object); any other response that is not valid JSON after fence-stripping
makes the parse fail, and each operation handles the failure itself:
search returns the empty list, exam generation fails with its domain
error, define-word fails with its domain error, the quiz generator
propagates the parse error, and text import falls back to
`{fileName, rawText}` — none of them degrades to an empty object. -/
theorem c3_parse_fallback_amended :
    cleanJsonText "" = "\x7b\x7d" ∧
    jsonParse "\x7b\x7d" = some (Json.obj []) ∧
    (∀ (s : Option AISettings) (net : Net)
       (t topic word lvl fname raw : String) (words : List String)
       (ctx req : Option String) (now : Nat),
      credsOk s = true → (∀ c, net c = .ok t) →
      jsonParse (cleanJsonText t) = none →
      (searchArticles topic s now net).1 = .ok [] ∧
      (generateExam lvl words req s net).1 =
        .error (.domain "Failed to generate exam.") ∧
      (defineWord word ctx s net).1 =
        .error (.domain "Failed to define word.") ∧
      (generateQuizForWord word s now net).1 = .error .parse ∧
      (processImportedText raw fname s net).1 =
        .ok (Json.str fname, Json.str raw)) := by
  refine ⟨rfl, rfl, ?_⟩
  intro s net t topic word lvl fname raw words ctx req now hc hnet hparse
  obtain ⟨label, hl⟩ := searchArticles_fst_netOk topic s now net t hc hnet
  rw [hparse] at hl
  exact ⟨hl, generateExam_parse_none lvl words req s net t hc hnet hparse,
    defineWord_parse_none word ctx s net t hc hnet hparse,
    generateQuiz_parse_none word s now net t hc hnet hparse,
    processImported_parse_none raw fname s net t hc hnet hparse⟩

/-- Witness for the amended C3 on the concrete non-JSON response. -/
theorem c3_parse_fallback_amended_witness :
    (searchArticles "t" none 0 (constNet (.ok "not json"))).1 = .ok [] ∧
    (generateExam "B1" ["w"] none none (constNet (.ok "not json"))).1 =
      .error (.domain "Failed to generate exam.") ∧
    (defineWord "w" none none (constNet (.ok "not json"))).1 =
      .error (.domain "Failed to define word.") ∧
    (generateQuizForWord "w" none 0 (constNet (.ok "not json"))).1 = .error .parse ∧
    (processImportedText "raw" "f.txt" none (constNet (.ok "not json"))).1 =
      .ok (Json.str "f.txt", Json.str "raw") :=
  c3_parse_fallback_amended.2.2 none (constNet (.ok "not json")) "not json"
    "t" "w" "B1" "f.txt" "raw" ["w"] none none 0 rfl (fun _ => rfl) rfl

/-- Counterexample to C4 as stated: the source copies
`correctOptionIndex` from the model response without validation, so a
response with index 5 over a 2-element options array yields a returned
question violating both the bounds and the option-equals-word property. -/
theorem c4_quiz_invariant_counterexample :
    (generateQuizForWord "apple" none 0 (constNet (.ok quizBadJson))).1 =
      Except.ok { id := "0", type := "fill-blank",
                  question := some (Json.str "q"),
                  options := some (Json.arr [Json.str "a", Json.str "b"]),
                  correctOptionIndex := some (Json.num 5),
                  explanation := "The correct answer is apple." } ∧
    quizInvariant "apple"
      { id := "0", type := "fill-blank", question := some (Json.str "q"),
        options := some (Json.arr [Json.str "a", Json.str "b"]),
        correctOptionIndex := some (Json.num 5),
        explanation := "The correct answer is apple." } = false :=
  ⟨rfl, rfl⟩

/-- A quiz response parsing to `null` makes the first property access
throw a `TypeError`, which the operation rethrows, exactly as the source
does. -/
theorem generateQuizForWord_null_response_throws :
    (generateQuizForWord "w" none 0 (constNet (.ok "null"))).1 =
      .error .typeError := rfl

/-- Amended C4: for a response parsing to a JSON object,
`generateQuizForWord` copies the parsed fields verbatim into the returned
question (with a clock-derived id, type fill-blank and a fixed
explanation); consequently the claimed invariant — index in
`[0, options.length)` and the indexed option case-insensitively equal to
the word — holds exactly when the model response satisfies it, and is not
enforced by the code itself. -/
theorem c4_quiz_invariant_amended (word : String) (s : Option AISettings)
    (now : Nat) (net : Net) (t : String) (d : Json)
    (hc : credsOk s = true) (hnet : ∀ c, net c = .ok t)
    (hparse : jsonParse (cleanJsonText t) = some d) (hobj : d.isObj = true) :
    (generateQuizForWord word s now net).1 =
      .ok { id := toString now, type := "fill-blank",
            question := d.objField "question",
            options := d.objField "options",
            correctOptionIndex := d.objField "correctOptionIndex",
            explanation := "The correct answer is " ++ word ++ "." } ∧
    (quizFieldsInv word (d.objField "options") (d.objField "correctOptionIndex") = true →
      ∃ q, (generateQuizForWord word s now net).1 = .ok q ∧
        quizInvariant word q = true) := by
  obtain ⟨tr, htr⟩ := callAI_dest (.text (quizPrompt word)) s (some quizSchema)
    false net t hc hnet
  have h1 := jsGet_of_isObj d "question" hobj
  have h2 := jsGet_of_isObj d "options" hobj
  have h3 := jsGet_of_isObj d "correctOptionIndex" hobj
  have hq : (generateQuizForWord word s now net).1 =
      .ok { id := toString now, type := "fill-blank",
            question := d.objField "question",
            options := d.objField "options",
            correctOptionIndex := d.objField "correctOptionIndex",
            explanation := "The correct answer is " ++ word ++ "." } := by
    simp [generateQuizForWord, htr, hparse, h1, h2, h3]
  exact ⟨hq, fun hinv => ⟨_, hq, hinv⟩⟩

/-- Witness for the amended C4: a well-formed object response for "apple"
whose option at the returned index is "Apple". -/
theorem c4_quiz_invariant_amended_witness :
    (generateQuizForWord "apple" none 9 (constNet (.ok quizGoodJson))).1 =
      .ok { id := "9", type := "fill-blank",
            question := (Json.obj [("question", Json.str "The ______ is red."),
              ("options", Json.arr [Json.str "sky", Json.str "Apple",
                Json.str "grass", Json.str "sea"]),
              ("correctOptionIndex", Json.num 1)]).objField "question",
            options := (Json.obj [("question", Json.str "The ______ is red."),
              ("options", Json.arr [Json.str "sky", Json.str "Apple",
                Json.str "grass", Json.str "sea"]),
              ("correctOptionIndex", Json.num 1)]).objField "options",
            correctOptionIndex := (Json.obj [("question", Json.str "The ______ is red."),
              ("options", Json.arr [Json.str "sky", Json.str "Apple",
                Json.str "grass", Json.str "sea"]),
              ("correctOptionIndex", Json.num 1)]).objField "correctOptionIndex",
            explanation := "The correct answer is apple." } ∧
    (∃ q, (generateQuizForWord "apple" none 9 (constNet (.ok quizGoodJson))).1 = .ok q ∧
      quizInvariant "apple" q = true) := by
  have h := c4_quiz_invariant_amended "apple" none 9 (constNet (.ok quizGoodJson))
    quizGoodJson
    (Json.obj [("question", Json.str "The ______ is red."),
      ("options", Json.arr [Json.str "sky", Json.str "Apple",
        Json.str "grass", Json.str "sea"]),
      ("correctOptionIndex", Json.num 1)])
    rfl (fun _ => rfl) rfl rfl
  exact ⟨h.1, h.2 rfl⟩

theorem defineWord_trace (w : String) (ctx : Option String)
    (s : Option AISettings) (net : Net) :
    (defineWord w ctx s net).2.length ≤ 1 := by
  have h := callAI_trace_le (.text (defineWordPrompt w ctx)) s (some defineWordSchema) false net
  unfold defineWord
  split
  next e tr heq =>
    rw [heq] at h
    simpa using h
  next t tr heq =>
    rw [heq] at h
    split <;> simpa using h

theorem translateText_trace (txt : String) (s : Option AISettings) (net : Net) :
    (translateText txt s net).2.length ≤ 1 := by
  have h := callAI_trace_le (.text (translatePrompt txt)) s none false net
  unfold translateText
  split
  next e tr heq =>
    rw [heq] at h
    simpa using h
  next t tr heq =>
    rw [heq] at h
    simpa using h

theorem generateQuizForWord_trace (w : String) (s : Option AISettings)
    (now : Nat) (net : Net) :
    (generateQuizForWord w s now net).2.length ≤ 1 := by
  have h := callAI_trace_le (.text (quizPrompt w)) s (some quizSchema) false net
  unfold generateQuizForWord
  split
  next e tr heq =>
    rw [heq] at h
    simpa using h
  next t tr heq =>
    rw [heq] at h
    split
    · simpa using h
    · split <;> simpa using h

theorem generateExam_trace (lvl : String) (words : List String)
    (req : Option String) (s : Option AISettings) (net : Net) :
    (generateExam lvl words req s net).2.length ≤ 1 := by
  have h := callAI_trace_le
    (.text (examPrompt lvl (String.intercalate ", " (words.drop (words.length - 30)))
      (examReq req))) s (some examSchema) false net
  unfold generateExam
  split
  next e tr heq =>
    rw [heq] at h
    simpa using h
  next t tr heq =>
    rw [heq] at h
    split <;> simpa using h

theorem chatWithTutor_trace (hist : List ChatTurn) (msg uctx : String)
    (s : Option AISettings) (net : Net) :
    (chatWithTutor hist msg uctx s net).2.length ≤ 1 := by
  rcases s with _ | s2
  · simp only [chatWithTutor, chatGemini]
    split <;> simp
  · rcases hp : s2.provider
    · simp only [chatWithTutor, chatGemini, hp]
      split <;> simp
    · rcases hb : strFalsy s2.baseUrl || strFalsy s2.customApiKey
      · simp only [chatWithTutor, hp, hb]
        split <;> simp
      · simp [chatWithTutor, hp, hb]

theorem defineWord_netErr (w : String) (ctx : Option String)
    (s : Option AISettings) (net : Net) (e : NetErr)
    (hnet : ∀ c, net c = .error e) :
    (defineWord w ctx s net).1 = .error (.domain "Failed to define word.") := by
  have h := callAI_isErr_netErr (.text (defineWordPrompt w ctx)) s (some defineWordSchema) false net e hnet
  unfold defineWord
  split
  next e2 tr heq => simp
  next t tr heq =>
    rw [heq] at h
    simp [isErr] at h

theorem translateText_netErr (txt : String) (s : Option AISettings) (net : Net)
    (e : NetErr) (hnet : ∀ c, net c = .error e) :
    (translateText txt s net).1 = .error (.domain "Failed to translate text.") := by
  have h := callAI_isErr_netErr (.text (translatePrompt txt)) s none false net e hnet
  unfold translateText
  split
  next e2 tr heq => simp
  next t tr heq =>
    rw [heq] at h
    simp [isErr] at h

theorem generateQuizForWord_netErr (w : String) (s : Option AISettings)
    (now : Nat) (net : Net) (e : NetErr) (hnet : ∀ c, net c = .error e) :
    isErr (generateQuizForWord w s now net).1 = true := by
  have h := callAI_isErr_netErr (.text (quizPrompt w)) s (some quizSchema) false net e hnet
  unfold generateQuizForWord
  split
  next e2 tr heq => simp [isErr]
  next t tr heq =>
    rw [heq] at h
    simp [isErr] at h

theorem generateExam_netErr (lvl : String) (words : List String)
    (req : Option String) (s : Option AISettings) (net : Net) (e : NetErr)
    (hnet : ∀ c, net c = .error e) :
    (generateExam lvl words req s net).1 =
      .error (.domain "Failed to generate exam.") := by
  have h := callAI_isErr_netErr
    (.text (examPrompt lvl (String.intercalate ", " (words.drop (words.length - 30)))
      (examReq req))) s (some examSchema) false net e hnet
  unfold generateExam
  split
  next e2 tr heq => simp
  next t tr heq =>
    rw [heq] at h
    simp [isErr] at h

theorem chatWithTutor_gemini_netErr (hist : List ChatTurn) (msg uctx : String)
    (s : Option AISettings) (net : Net) (e : NetErr)
    (hpr : providerOf s = .gemini) (hnet : ∀ c, net c = .error e) :
    (chatWithTutor hist msg uctx s net).1 = .error (.network e) := by
  rcases s with _ | s2
  · simp [chatWithTutor, chatGemini, hnet]
  · have hp2 : s2.provider = .gemini := by simpa [providerOf] using hpr
    simp [chatWithTutor, hp2, chatGemini, hnet]

/-- Counterexample to C9 as stated: on the custom provider, a transport
failure of the chat fetch is not propagated — `chatWithTutor` swallows it
and returns a fallback apology string. -/
theorem c9_error_propagation_counterexample :
    (chatWithTutor [] "hi" "ctx" (some customSettings) (constNet (.error .transport))).1 =
      Except.ok "I\x27m having trouble connecting to your custom AI provider." ∧
    isErr (chatWithTutor [] "hi" "ctx" (some customSettings)
      (constNet (.error .transport))).1 = false :=
  ⟨rfl, rfl⟩

/-- Amended C9: define word, translate, generate quiz and generate exam
raise an error to the caller whenever the provider call fails (on either
provider) or whenever response parsing fails, returning no fallback value,
and every one of these operations — chat included — makes at most one
provider call per invocation (no retry). Chat propagates provider failures
only on the native provider; the custom-provider chat path swallows them
into a fallback string. -/
theorem c9_error_propagation_amended :
    (∀ (w txt lvl : String) (ctx req : Option String) (words : List String)
       (s : Option AISettings) (now : Nat) (net : Net) (e : NetErr),
      (∀ c, net c = .error e) →
      (defineWord w ctx s net).1 = .error (.domain "Failed to define word.") ∧
      (translateText txt s net).1 = .error (.domain "Failed to translate text.") ∧
      isErr (generateQuizForWord w s now net).1 = true ∧
      (generateExam lvl words req s net).1 =
        .error (.domain "Failed to generate exam.")) ∧
    (∀ (hist : List ChatTurn) (msg uctx : String) (s : Option AISettings)
       (net : Net) (e : NetErr),
      providerOf s = .gemini → (∀ c, net c = .error e) →
      (chatWithTutor hist msg uctx s net).1 = .error (.network e)) ∧
    (∀ (w lvl : String) (ctx req : Option String) (words : List String)
       (s : Option AISettings) (now : Nat) (net : Net) (t : String),
      credsOk s = true → (∀ c, net c = .ok t) →
      jsonParse (cleanJsonText t) = none →
      (defineWord w ctx s net).1 = .error (.domain "Failed to define word.") ∧
      (generateQuizForWord w s now net).1 = .error .parse ∧
      (generateExam lvl words req s net).1 =
        .error (.domain "Failed to generate exam.")) ∧
    (∀ (w txt lvl msg uctx : String) (ctx req : Option String)
       (words : List String) (hist : List ChatTurn) (s : Option AISettings)
       (now : Nat) (net : Net),
      (defineWord w ctx s net).2.length ≤ 1 ∧
      (translateText txt s net).2.length ≤ 1 ∧
      (generateQuizForWord w s now net).2.length ≤ 1 ∧
      (generateExam lvl words req s net).2.length ≤ 1 ∧
      (chatWithTutor hist msg uctx s net).2.length ≤ 1) := by
  refine ⟨?_, ?_, ?_, ?_⟩
  · intro w txt lvl ctx req words s now net e hnet
    exact ⟨defineWord_netErr w ctx s net e hnet,
      translateText_netErr txt s net e hnet,
      generateQuizForWord_netErr w s now net e hnet,
      generateExam_netErr lvl words req s net e hnet⟩
  · intro hist msg uctx s net e hpr hnet
    exact chatWithTutor_gemini_netErr hist msg uctx s net e hpr hnet
  · intro w lvl ctx req words s now net t hc hnet hparse
    exact ⟨defineWord_parse_none w ctx s net t hc hnet hparse,
      generateQuiz_parse_none w s now net t hc hnet hparse,
      generateExam_parse_none lvl words req s net t hc hnet hparse⟩
  · intro w txt lvl msg uctx ctx req words hist s now net
    exact ⟨defineWord_trace w ctx s net,
      translateText_trace txt s net,
      generateQuizForWord_trace w s now net,
      generateExam_trace lvl words req s net,
      chatWithTutor_trace hist msg uctx s net⟩

/-- Witness for the amended C9 at concrete inputs: a failing oracle on the
native default settings, a garbage response, and trace bounds. -/
theorem c9_error_propagation_amended_witness :
    ((defineWord "w" none none (constNet (.error .transport))).1 =
      .error (.domain "Failed to define word.") ∧
     (translateText "tx" none (constNet (.error .transport))).1 =
      .error (.domain "Failed to translate text.") ∧
     isErr (generateQuizForWord "w" none 0 (constNet (.error .transport))).1 = true ∧
     (generateExam "B1" ["w"] none none (constNet (.error .transport))).1 =
      .error (.domain "Failed to generate exam.")) ∧
    (chatWithTutor [] "hi" "ctx" none (constNet (.error .transport))).1 =
      .error (.network .transport) ∧
    ((defineWord "w" none none (constNet (.ok "not json"))).1 =
      .error (.domain "Failed to define word.") ∧
     (generateQuizForWord "w" none 0 (constNet (.ok "not json"))).1 = .error .parse ∧
     (generateExam "B1" ["w"] none none (constNet (.ok "not json"))).1 =
      .error (.domain "Failed to generate exam.")) ∧
    ((defineWord "w" none none (constNet (.error .transport))).2.length ≤ 1 ∧
     (translateText "tx" none (constNet (.error .transport))).2.length ≤ 1 ∧
     (generateQuizForWord "w" none 0 (constNet (.error .transport))).2.length ≤ 1 ∧
     (generateExam "B1" ["w"] none none (constNet (.error .transport))).2.length ≤ 1 ∧
     (chatWithTutor [] "hi" "ctx" none (constNet (.error .transport))).2.length ≤ 1) :=
  ⟨c9_error_propagation_amended.1 "w" "tx" "B1" none none ["w"] none 0
     (constNet (.error .transport)) .transport (fun _ => rfl),
   c9_error_propagation_amended.2.1 [] "hi" "ctx" none
     (constNet (.error .transport)) .transport rfl (fun _ => rfl),
   c9_error_propagation_amended.2.2.1 "w" "B1" none none ["w"] none 0
     (constNet (.ok "not json")) "not json" rfl (fun _ => rfl) rfl,
   c9_error_propagation_amended.2.2.2 "w" "tx" "B1" "hi" "ctx" none none ["w"]
     [] none 0 (constNet (.error .transport))⟩
